import Mathlib

/-!
Verification of the serenade music-bot core against its specification.

The Python sources are shallowly embedded:
* `src/models/track.py` → `Track`
* `src/music/queue.py`  → `GuildQueue` and its operations; `random.choice`
  and `random.randrange` are modelled by an explicit randomness argument
  `r : Nat` reduced modulo the relevant length
* `src/music/player.py` → the frame buffer of `YTDLPAudioSource`
  (`FrameBuffer`), and the `Player` control state (idle timer, transport
  flags) as explicit state passing
* `src/resolver.py`     → `Resolver` over abstract provider oracles
-/

/-- `src/models/track.py` `Track`: a track ready to be queued and played. -/
structure Track where
  title : String
  artist : String
  duration_ms : Nat
  album_art_url : Option String
  youtube_url : String
  source_url : Option String
  requested_by : Option String := none
deriving DecidableEq, Repr

instance : Inhabited Track :=
  ⟨{ title := "", artist := "", duration_ms := 0, album_art_url := none,
     youtube_url := "", source_url := none, requested_by := none }⟩

/-- `src/music/queue.py` `GuildQueue`: pending deque, current track, shuffle flag. -/
structure GuildQueue where
  queue : List Track
  current : Option Track
  shuffle : Bool
deriving DecidableEq, Repr

/-- `GuildQueue.add`: append, return the zero-based position (old length). -/
def GuildQueue.add (q : GuildQueue) (t : Track) : Nat × GuildQueue :=
  (q.queue.length, { q with queue := q.queue ++ [t] })

/-- `prev_requester = self.current.requested_by if self.current else None`. -/
def GuildQueue.prevRequester (q : GuildQueue) : Option String :=
  match q.current with
  | some c => c.requested_by
  | none => none

/-- The `other_indices` comprehension of `GuildQueue._pick_shuffle_track`:
indices of pending tracks whose `requested_by` differs from the previous
requester. -/
def otherIndices (l : List Track) (prev : Option String) : List Nat :=
  (List.range l.length).filter (fun i => decide ((l.getD i default).requested_by ≠ prev))

/-- Index picked by `GuildQueue._pick_shuffle_track`: `random.choice` over
`other_indices` when non-empty, else `random.randrange(len(queue))`; the
randomness is the argument `r`, reduced modulo the candidate count. -/
def pickShuffleIdx (l : List Track) (prev : Option String) (r : Nat) : Nat :=
  let others := otherIndices l prev
  if others = [] then r % l.length
  else others.getD (r % others.length) 0

/-- `GuildQueue.next`: empty pending clears `current` and returns none;
shuffle mode removes the fair-shuffle pick from its position; FIFO mode pops
the head. In each non-empty case `current` is set to the returned track. -/
def GuildQueue.next (q : GuildQueue) (r : Nat) : Option Track × GuildQueue :=
  if q.queue = [] then (none, { q with current := none })
  else if q.shuffle then
    let i := pickShuffleIdx q.queue q.prevRequester r
    let tr := q.queue.getD i default
    (some tr, { queue := q.queue.eraseIdx i, current := some tr, shuffle := q.shuffle })
  else
    (some (q.queue.headD default),
     { queue := q.queue.tail, current := some (q.queue.headD default), shuffle := q.shuffle })

/-- `GuildQueue.skip` delegates to `next`. -/
def GuildQueue.skip (q : GuildQueue) (r : Nat) : Option Track × GuildQueue :=
  q.next r

/-- `GuildQueue.clear`: empties pending, leaves `current` untouched. -/
def GuildQueue.clear (q : GuildQueue) : GuildQueue :=
  { q with queue := [] }

/-- Effect of `Player.stop` on the queue (`src/music/player.py` lines
226–227): `queue.clear()` then `queue.current = None`. -/
def stopQueueEffect (q : GuildQueue) : GuildQueue :=
  { q.clear with current := none }

theorem mem_otherIndices {l : List Track} {prev : Option String} {i : Nat} :
    i ∈ otherIndices l prev ↔ i < l.length ∧ (l.getD i default).requested_by ≠ prev := by
  simp [otherIndices, List.mem_filter, List.mem_range]

theorem otherIndices_ne_nil {l : List Track} {prev : Option String} {t : Track}
    (ht : t ∈ l) (hreq : t.requested_by ≠ prev) : otherIndices l prev ≠ [] := by
  obtain ⟨j, hj, rfl⟩ := List.mem_iff_getElem.mp ht
  have hd : l.getD j default = l[j] := by
    simp [List.getD_eq_getElem?_getD, List.getElem?_eq_getElem hj]
  intro hnil
  have : j ∈ otherIndices l prev := mem_otherIndices.mpr ⟨hj, by rw [hd]; exact hreq⟩
  simp [hnil] at this

theorem pickShuffleIdx_mem {l : List Track} {prev : Option String} (r : Nat)
    (h : otherIndices l prev ≠ []) : pickShuffleIdx l prev r ∈ otherIndices l prev := by
  have hlen : 0 < (otherIndices l prev).length := List.length_pos.mpr h
  have hm : r % (otherIndices l prev).length < (otherIndices l prev).length :=
    Nat.mod_lt _ hlen
  unfold pickShuffleIdx
  rw [if_neg h, List.getD_eq_getElem?_getD, List.getElem?_eq_getElem hm]
  exact List.getElem_mem hm

theorem pickShuffleIdx_lt {l : List Track} {prev : Option String} (r : Nat)
    (hl : l ≠ []) : pickShuffleIdx l prev r < l.length := by
  by_cases h : otherIndices l prev = []
  · unfold pickShuffleIdx
    rw [if_pos h]
    exact Nat.mod_lt _ (List.length_pos.mpr hl)
  · exact (mem_otherIndices.mp (pickShuffleIdx_mem r h)).1

theorem next_shuffle_eq (q : GuildQueue) (r : Nat) (hs : q.shuffle = true)
    (hne : q.queue ≠ []) :
    q.next r = (some (q.queue.getD (pickShuffleIdx q.queue q.prevRequester r) default),
      { queue := q.queue.eraseIdx (pickShuffleIdx q.queue q.prevRequester r),
        current := some (q.queue.getD (pickShuffleIdx q.queue q.prevRequester r) default),
        shuffle := q.shuffle }) := by
  simp [GuildQueue.next, hne, hs]

/-- C1: fair-shuffle selection. With shuffle enabled, a non-empty pending
sequence and a current track `c`: (a) if some pending track's requester
differs from `c`'s, `next()` returns a pending track whose requester differs
from `c`'s, removed from its position; (b) if every pending track shares
`c`'s requester, `next()` still returns some pending track, removed from its
position (picked from all of pending). -/
theorem fair_shuffle_selection (q : GuildQueue) (c : Track) (r : Nat)
    (hs : q.shuffle = true) (hc : q.current = some c) (hne : q.queue ≠ []) :
    ((∃ t ∈ q.queue, t.requested_by ≠ c.requested_by) →
      ∃ i, i < q.queue.length ∧ (q.next r).1 = some (q.queue.getD i default) ∧
        (q.queue.getD i default).requested_by ≠ c.requested_by ∧
        (q.next r).2.queue = q.queue.eraseIdx i) ∧
    ((∀ t ∈ q.queue, t.requested_by = c.requested_by) →
      ∃ i, i < q.queue.length ∧ (q.next r).1 = some (q.queue.getD i default) ∧
        (q.next r).2.queue = q.queue.eraseIdx i) := by
  have hprev : q.prevRequester = c.requested_by := by
    simp [GuildQueue.prevRequester, hc]
  have heq := next_shuffle_eq q r hs hne
  constructor
  · rintro ⟨t, ht, hreq⟩
    have hon : otherIndices q.queue q.prevRequester ≠ [] :=
      otherIndices_ne_nil ht (by rw [hprev]; exact hreq)
    have hmem := pickShuffleIdx_mem r hon
    have hprop := mem_otherIndices.mp hmem
    exact ⟨pickShuffleIdx q.queue q.prevRequester r, hprop.1,
      by rw [heq], by rw [← hprev]; exact hprop.2, by rw [heq]⟩
  · intro _
    exact ⟨pickShuffleIdx q.queue q.prevRequester r, pickShuffleIdx_lt r hne,
      by rw [heq], by rw [heq]⟩

def trackAlice : Track :=
  { title := "a", artist := "x", duration_ms := 1000, album_art_url := none,
    youtube_url := "https://www.youtube.com/watch?v=a", source_url := none,
    requested_by := some "alice" }

def trackBob : Track :=
  { title := "b", artist := "y", duration_ms := 2000, album_art_url := none,
    youtube_url := "https://www.youtube.com/watch?v=b", source_url := none,
    requested_by := some "bob" }

def trackNoReq : Track :=
  { title := "n", artist := "z", duration_ms := 3000, album_art_url := none,
    youtube_url := "https://www.youtube.com/watch?v=n", source_url := none,
    requested_by := none }

def qFair : GuildQueue := ⟨[trackBob], some trackAlice, true⟩

/-- C1 witness: one pending track from a different requester. -/
theorem fair_shuffle_selection_witness :
    ∃ i, i < qFair.queue.length ∧ (qFair.next 0).1 = some (qFair.queue.getD i default) ∧
      (qFair.queue.getD i default).requested_by ≠ trackAlice.requested_by ∧
      (qFair.next 0).2.queue = qFair.queue.eraseIdx i :=
  (fair_shuffle_selection qFair trackAlice 0 rfl rfl (by decide)).1
    ⟨trackBob, by simp [qFair], by decide⟩

/-- C10: with shuffle enabled and no current track, the previous requester is
absent, so a pending track whose `requested_by` is unset compares equal to it;
if at least one pending track has a set requester, `next()` returns a track
with a set requester (unset-requester tracks are excluded from selection). -/
theorem shuffle_no_current_prefers_set_requesters (q : GuildQueue) (r : Nat)
    (hs : q.shuffle = true) (hc : q.current = none)
    (hex : ∃ t ∈ q.queue, t.requested_by ≠ none) :
    ∃ tr, (q.next r).1 = some tr ∧ tr.requested_by.isSome := by
  have hne : q.queue ≠ [] := by
    rintro h
    rcases hex with ⟨t, ht, _⟩
    simp [h] at ht
  have hprev : q.prevRequester = none := by
    simp [GuildQueue.prevRequester, hc]
  have heq := next_shuffle_eq q r hs hne
  rcases hex with ⟨t, ht, hreq⟩
  have hon : otherIndices q.queue q.prevRequester ≠ [] :=
    otherIndices_ne_nil ht (by rw [hprev]; exact hreq)
  have hprop := mem_otherIndices.mp (pickShuffleIdx_mem r hon)
  refine ⟨q.queue.getD (pickShuffleIdx q.queue q.prevRequester r) default, by rw [heq], ?_⟩
  rw [Option.isSome_iff_ne_none, hprev]
  rw [hprev] at hprop
  exact hprop.2

def qNoCurrent : GuildQueue := ⟨[trackNoReq, trackBob], none, true⟩

/-- C10 witness: an unset-requester track and a set-requester track pending. -/
theorem shuffle_no_current_prefers_set_requesters_witness :
    ∃ tr, (qNoCurrent.next 5).1 = some tr ∧ tr.requested_by.isSome :=
  shuffle_no_current_prefers_set_requesters qNoCurrent 5 rfl rfl
    ⟨trackBob, by simp [qNoCurrent], by decide⟩

/-- C7: `next()` on an empty pending sequence returns an empty result, sets
`current` to empty, and repeated calls return the same empty result without
any further state change. -/
theorem empty_next_stable (q : GuildQueue) (r r' : Nat) (hq : q.queue = []) :
    (q.next r).1 = none ∧ (q.next r).2 = { q with current := none } ∧
    GuildQueue.next { q with current := none } r' = (none, { q with current := none }) := by
  refine ⟨?_, ?_, ?_⟩ <;> simp [GuildQueue.next, hq]

/-- C7 witness: the empty queue at a concrete state. -/
theorem empty_next_stable_witness :
    ((GuildQueue.mk [] none false).next 0).1 = none ∧
    ((GuildQueue.mk [] none false).next 0).2 = { GuildQueue.mk [] none false with current := none } ∧
    GuildQueue.next { GuildQueue.mk [] none false with current := none } 7 =
      (none, { GuildQueue.mk [] none false with current := none }) :=
  empty_next_stable (GuildQueue.mk [] none false) 0 7 rfl

def qWithCurrent : GuildQueue := ⟨[], some trackAlice, false⟩

/-- C3 counterexample: `Player.stop` (its queue effect, `stopQueueEffect`)
empties `current` without `next()` being called, so "no other operation
empties or replaces `current`" fails at this concrete state. -/
theorem stop_clears_current_without_next :
    qWithCurrent.current = some trackAlice ∧ (stopQueueEffect qWithCurrent).current = none :=
  ⟨rfl, rfl⟩

/-- C3 amended: `current` equals exactly the value last returned by `next()`
(`add` and `clear` never touch it, `next` stores exactly what it returns, and
it becomes empty through `next` exactly when pending is empty) — except that
`stop()` also clears `current` to empty. -/
theorem current_tracks_last_next :
    (∀ (q : GuildQueue) (t : Track), ((q.add t).2).current = q.current) ∧
    (∀ q : GuildQueue, q.clear.current = q.current) ∧
    (∀ (q : GuildQueue) (r : Nat), ((q.next r).2).current = (q.next r).1) ∧
    (∀ (q : GuildQueue) (r : Nat), (((q.next r).2).current = none ↔ q.queue = [])) ∧
    (∀ q : GuildQueue, (stopQueueEffect q).current = none) := by
  refine ⟨fun q t => rfl, fun q => rfl, ?_, ?_, fun q => rfl⟩
  · intro q r
    by_cases hq : q.queue = []
    · simp [GuildQueue.next, hq]
    · by_cases hs : q.shuffle <;> simp [GuildQueue.next, hq, hs]
  · intro q r
    by_cases hq : q.queue = []
    · simp [GuildQueue.next, hq]
    · by_cases hs : q.shuffle <;> simp [GuildQueue.next, hq, hs]

/-- `FRAME_SIZE` of `src/music/player.py`: 20 ms of 48 kHz stereo 16-bit PCM. -/
def FRAME_SIZE : Nat := 3840

/-- `int(AUDIO_BUFFER_SECONDS * FRAMES_PER_SECOND)` = `int(5.0 * 50)`. -/
def BUFFER_FRAMES : Nat := 250

/-- The silence frame `b"\x00" * FRAME_SIZE` returned on buffer underrun. -/
def silenceFrame : List Nat := List.replicate FRAME_SIZE 0

/-- State of the thread-safe frame buffer of `YTDLPAudioSource`: queued
frames (each a byte sequence) and the end-of-stream flag `_eof`. -/
structure FrameBuffer where
  frames : List (List Nat)
  eof : Bool
deriving DecidableEq, Repr

/-- `YTDLPAudioSource.read`: pop a frame if one is queued; on an empty buffer
return `b""` (stream end) when `_eof` is set, else a silence frame. -/
def FrameBuffer.read (b : FrameBuffer) : List Nat × FrameBuffer :=
  match b.frames with
  | f :: rest => (f, { b with frames := rest })
  | [] => if b.eof then ([], b) else (silenceFrame, b)

/-- `self._buffer.put(data, timeout=1.0)` with the `queue.Full` drop: append
when below capacity, otherwise drop the frame. -/
def FrameBuffer.push (b : FrameBuffer) (d : List Nat) : FrameBuffer :=
  if b.frames.length < BUFFER_FRAMES then { b with frames := b.frames ++ [d] } else b

/-- `YTDLPAudioSource._buffer_loop`: read fixed-size chunks from the
transcoder's output into the buffer until a short chunk, which marks
end-of-stream and stops the loop. -/
def bufferLoop : List (List Nat) → FrameBuffer → FrameBuffer
  | [], b => b
  | d :: ds, b => if d.length < FRAME_SIZE then { b with eof := true } else bufferLoop ds (b.push d)

/-- Every frame the buffer loop queues is full-size: chunks come from
`read(FRAME_SIZE)` (so are at most `FRAME_SIZE` bytes) and short chunks are
never pushed. -/
theorem bufferLoop_wf (chunks : List (List Nat)) :
    ∀ b : FrameBuffer, (∀ f ∈ b.frames, f.length = FRAME_SIZE) →
    (∀ c ∈ chunks, c.length ≤ FRAME_SIZE) →
    ∀ f ∈ (bufferLoop chunks b).frames, f.length = FRAME_SIZE := by
  induction chunks with
  | nil =>
    intro b hb _
    simpa [bufferLoop] using hb
  | cons d ds ih =>
    intro b hb hc f hf
    simp only [bufferLoop] at hf
    by_cases hd : d.length < FRAME_SIZE
    · rw [if_pos hd] at hf
      exact hb f hf
    · rw [if_neg hd] at hf
      refine ih (b.push d) ?_ (fun c hc' => hc c (by simp [hc'])) f hf
      intro g hg
      unfold FrameBuffer.push at hg
      by_cases hl : b.frames.length < BUFFER_FRAMES
      · rw [if_pos hl] at hg
        simp only [List.mem_append, List.mem_singleton] at hg
        rcases hg with hg | hg
        · exact hb g hg
        · subst hg
          exact le_antisymm (hc g (by simp)) (not_lt.mp hd)
      · rw [if_neg hl] at hg
        exact hb g hg

theorem silenceFrame_length : silenceFrame.length = 3840 := by
  unfold silenceFrame
  rw [List.length_replicate]
  rfl

theorem silenceFrame_ne_nil : silenceFrame ≠ [] := by
  intro h
  have hl := silenceFrame_length
  rw [h] at hl
  simp at hl

/-- C2: frame-buffer read policy. For any buffer state whose queued frames
are full-size (as `_buffer_loop` guarantees): on an empty buffer with
end-of-stream unset, `read` returns a silence frame of exactly 3840 zero
bytes; and `read` returns the empty stream-end result exactly when the
buffer has drained and end-of-stream is set. -/
theorem frame_read_policy (b : FrameBuffer)
    (hwf : ∀ f ∈ b.frames, f.length = FRAME_SIZE) :
    (b.frames = [] → b.eof = false →
      b.read.1 = silenceFrame ∧ b.read.1.length = 3840 ∧ ∀ x ∈ b.read.1, x = 0) ∧
    (b.read.1 = [] ↔ (b.frames = [] ∧ b.eof = true)) := by
  constructor
  · intro he hf
    have h1 : b.read.1 = silenceFrame := by
      simp [FrameBuffer.read, he, hf]
    refine ⟨h1, ?_, ?_⟩
    · rw [h1]
      exact silenceFrame_length
    · rw [h1]
      intro x hx
      exact List.eq_of_mem_replicate hx
  · cases hfr : b.frames with
    | nil =>
      cases hef : b.eof
      · have h1 : b.read.1 = silenceFrame := by simp [FrameBuffer.read, hfr, hef]
        rw [h1]
        simp [silenceFrame_ne_nil, hef]
      · have h1 : b.read.1 = [] := by simp [FrameBuffer.read, hfr, hef]
        rw [h1]
        simp [hfr, hef]
    | cons f rest =>
      have h1 : b.read.1 = f := by simp [FrameBuffer.read, hfr]
      have hflen : f.length = FRAME_SIZE := hwf f (by rw [hfr]; exact List.mem_cons_self f rest)
      rw [h1]
      constructor
      · intro hfe
        exfalso
        rw [hfe] at hflen
        simp [FRAME_SIZE] at hflen
      · rintro ⟨hcontra, -⟩
        exact absurd hcontra (List.cons_ne_nil f rest)

/-- C2 witness: reading the concrete empty, non-end-of-stream buffer. -/
theorem frame_read_policy_witness :
    (FrameBuffer.read ⟨[], false⟩).1 = silenceFrame ∧
    (FrameBuffer.read ⟨[], false⟩).1.length = 3840 ∧
    ∀ x ∈ (FrameBuffer.read ⟨[], false⟩).1, x = 0 :=
  (frame_read_policy ⟨[], false⟩ (by simp)).1 rfl rfl

/-- Abstract transport (discord voice client) state, per the interface the
player consumes: `is_connected`, `is_playing`, `is_paused`. -/
structure VoiceState where
  connected : Bool
  playing : Bool
  paused : Bool
deriving DecidableEq, Repr

/-- Transport `pause()`: a playing stream becomes paused. -/
def vcPause (v : VoiceState) : VoiceState := { v with playing := false, paused := true }

/-- Transport `resume()`: a paused stream becomes playing. -/
def vcResume (v : VoiceState) : VoiceState := { v with playing := true, paused := false }

/-- Transport `stop()`: the current stream ends (triggers the after callback). -/
def vcStop (v : VoiceState) : VoiceState := { v with playing := false, paused := false }

/-- `Player.pause`: succeeds exactly when the transport is playing. -/
def playerPause (v : VoiceState) : Bool × VoiceState :=
  if v.playing then (true, vcPause v) else (false, v)

/-- `Player.resume`: succeeds exactly when the transport is paused. -/
def playerResume (v : VoiceState) : Bool × VoiceState :=
  if v.paused then (true, vcResume v) else (false, v)

/-- `Player.skip`: stops the transport only while playing or paused. -/
def playerSkip (v : VoiceState) : VoiceState :=
  if v.playing || v.paused then vcStop v else v

/-- C9: state-guarded playback controls. `pause()` returns true and pauses
the transport iff it is playing; `resume()` returns true and resumes iff it
is paused; `skip()` leaves the transport untouched when it is neither
playing nor paused. -/
theorem playback_control_guards (v : VoiceState) :
    ((playerPause v).1 = true ↔ v.playing = true) ∧
    (v.playing = true → (playerPause v).2 = vcPause v) ∧
    ((playerResume v).1 = true ↔ v.paused = true) ∧
    (v.paused = true → (playerResume v).2 = vcResume v) ∧
    (v.playing = false → v.paused = false → playerSkip v = v) := by
  refine ⟨?_, ?_, ?_, ?_, ?_⟩
  · by_cases h : v.playing <;> simp [playerPause, h]
  · intro h
    simp [playerPause, h]
  · by_cases h : v.paused <;> simp [playerResume, h]
  · intro h
    simp [playerResume, h]
  · intro h1 h2
    simp [playerSkip, h1, h2]

/-- `IDLE_TIMEOUT_SECONDS` of `src/music/player.py`. -/
def IDLE_TIMEOUT_SECONDS : Nat := 120

/-- `Player` control state: transport state, whether an idle-disconnect task
is pending (`_idle_task` live), and whether `on_disconnect` was invoked. -/
structure PlayerState where
  vc : VoiceState
  idleArmed : Bool
  cbInvoked : Bool
deriving DecidableEq, Repr

/-- `Player._cancel_idle_timer`. -/
def cancelIdleTimer (p : PlayerState) : PlayerState := { p with idleArmed := false }

/-- `Player._start_idle_timer`. -/
def startIdleTimer (p : PlayerState) : PlayerState := { p with idleArmed := true }

/-- `Player.is_playing`: playing or paused. -/
def isPlayingOrPaused (v : VoiceState) : Bool := v.playing || v.paused

/-- `Player.play_next`: cancel any pending idle timer, pop the queue; on an
empty queue arm the idle timer and return none, otherwise start the
transport on the popped track. -/
def playNext (p : PlayerState) (q : GuildQueue) (r : Nat) :
    Option Track × GuildQueue × PlayerState :=
  let p1 := cancelIdleTimer p
  match q.next r with
  | (none, q') => (none, q', startIdleTimer p1)
  | (some t, q') => (some t, q', { p1 with vc := { p1.vc with playing := true } })

/-- `Player._idle_disconnect` at the moment its sleep elapses: it runs only
if the task is still pending (not cancelled); it disconnects and invokes
`on_disconnect` only while connected and neither playing nor paused. -/
def idleDisconnect (p : PlayerState) : PlayerState :=
  if p.idleArmed then
    let p1 := { p with idleArmed := false }
    if p1.vc.connected && !(isPlayingOrPaused p1.vc) then
      { p1 with vc := { p1.vc with connected := false }, cbInvoked := true }
    else p1
  else p

theorem next_isSome (q : GuildQueue) (r : Nat) (hne : q.queue ≠ []) :
    ∃ t q', q.next r = (some t, q') := by
  by_cases hs : q.shuffle
  · exact ⟨_, _, next_shuffle_eq q r hs hne⟩
  · refine ⟨q.queue.headD default,
      GuildQueue.mk q.queue.tail (some (q.queue.headD default)) q.shuffle, ?_⟩
    simp [GuildQueue.next, hne, hs]

/-- C4: idle teardown. The timeout is the fixed 120 s; `playNext` on an
empty queue returns none and arms the idle timer; a pending timer that fires
while connected and neither playing nor paused disconnects the transport and
invokes the disconnect callback; `playNext` that pops a track leaves no
pending timer; and a cancelled (unarmed) timer firing changes nothing, so a
track queued and played before the timer fires prevents the disconnect. -/
theorem idle_teardown :
    IDLE_TIMEOUT_SECONDS = 120 ∧
    (∀ (p : PlayerState) (q : GuildQueue) (r : Nat), q.queue = [] →
      (playNext p q r).1 = none ∧ (playNext p q r).2.2.idleArmed = true) ∧
    (∀ p : PlayerState, p.idleArmed = true → p.vc.connected = true →
      p.vc.playing = false → p.vc.paused = false →
      (idleDisconnect p).vc.connected = false ∧ (idleDisconnect p).cbInvoked = true) ∧
    (∀ (p : PlayerState) (q : GuildQueue) (r : Nat), q.queue ≠ [] →
      (playNext p q r).2.2.idleArmed = false) ∧
    (∀ p : PlayerState, p.idleArmed = false → idleDisconnect p = p) := by
  refine ⟨rfl, ?_, ?_, ?_, ?_⟩
  · intro p q r hq
    simp [playNext, GuildQueue.next, hq, startIdleTimer, cancelIdleTimer]
  · intro p ha hc hp1 hp2
    simp [idleDisconnect, ha, hc, isPlayingOrPaused, hp1, hp2]
  · intro p q r hne
    obtain ⟨t, q', heq⟩ := next_isSome q r hne
    simp [playNext, heq, cancelIdleTimer]
  · intro p ha
    simp [idleDisconnect, ha]

/-- `src/models/track.py` `TrackMetadata`: provider-agnostic metadata. -/
structure TrackMetadata where
  title : String
  artist : String
  duration_ms : Nat
  album_art_url : Option String
  source_url : Option String
deriving DecidableEq, Repr

/-- One entry of the Spotify scraper's `album.images` list. -/
structure SpotifyImage where
  width : Nat
  height : Nat
  url : Option String
deriving DecidableEq, Repr

/-- The Spotify scraper's track dict, as `Resolver` reads it: `name`,
`artists[..]["name"]`, `duration_ms`, `album.images`. -/
structure SpotifyTrackInfo where
  name : String
  artists : List String
  duration_ms : Nat
  albumImages : List SpotifyImage
deriving DecidableEq, Repr

/-- One entry of `youtube.get_playlist_entries`: `id`, `title`, `duration`. -/
structure PlaylistEntry where
  id : Option String
  title : Option String
  duration : Option Nat
deriving DecidableEq, Repr

/-- The three metadata providers the resolver consults, as oracles
(`src/clients/`): YouTube Music search, YouTube metadata and playlist
listing, Spotify scraping. -/
structure Providers where
  ytmusicSearch : String → Option (TrackMetadata × String)
  youtubeMetadata : String → Option TrackMetadata
  youtubePlaylistEntries : String → List PlaylistEntry
  spotifyGetTrack : String → Option SpotifyTrackInfo
  spotifyGetPlaylistTracks : String → List SpotifyTrackInfo

/-- `MAX_PLAYLIST_TRACKS` of `src/resolver.py`. -/
def MAX_PLAYLIST_TRACKS : Nat := 500

/-- Python's `sub in s` on strings: `sub` occurs as a contiguous substring. -/
def pyContains (sub s : String) : Bool := decide (sub.data <:+: s.data)

/-- `Resolver._detect_input_type`. -/
def detectInputType (query : String) : String :=
  if pyContains "youtube.com/playlist" query then "youtube_playlist"
  else if pyContains "youtube.com/watch" query || pyContains "youtu.be/" query then "youtube_video"
  else if pyContains "music.youtube.com" query then "youtube_video"
  else if pyContains "open.spotify.com/track" query || pyContains "spotify:track:" query then "spotify_track"
  else if pyContains "open.spotify.com/playlist" query || pyContains "spotify:playlist:" query then "spotify_playlist"
  else "search"

/-- `Resolver._resolve_search`. -/
def resolveSearch (P : Providers) (query : String) : Except String Track :=
  match P.ytmusicSearch query with
  | none => .error ("No results for: " ++ query)
  | some (m, videoId) =>
    .ok { title := m.title, artist := m.artist, duration_ms := m.duration_ms,
          album_art_url := m.album_art_url,
          youtube_url := "https://www.youtube.com/watch?v=" ++ videoId,
          source_url := m.source_url, requested_by := none }

/-- `Resolver._resolve_youtube_video`: the URL is both metadata source and
playback reference. -/
def resolveYoutubeVideo (P : Providers) (url : String) : Except String Track :=
  match P.youtubeMetadata url with
  | none => .error ("Could not load: " ++ url)
  | some m =>
    .ok { title := m.title, artist := m.artist, duration_ms := m.duration_ms,
          album_art_url := m.album_art_url, youtube_url := url,
          source_url := some url, requested_by := none }

/-- Python `max(images, key=lambda i: i.get("width", 0) * i.get("height", 0))`
on a non-empty list: the first image of maximal area. -/
def largestImage : List SpotifyImage → Option SpotifyImage
  | [] => none
  | x :: xs =>
    some (xs.foldl (fun acc i =>
      if acc.width * acc.height < i.width * i.height then i else acc) x)

/-- `Resolver._resolve_spotify_track`: display metadata from the Spotify
scraper, playback reference re-resolved through YouTube Music search. -/
def resolveSpotifyTrack (P : Providers) (url : String) : Except String Track :=
  match P.spotifyGetTrack url with
  | none => .error ("Could not load Spotify track: " ++ url)
  | some ti =>
    match P.ytmusicSearch (ti.name ++ " " ++ ti.artists.headD "") with
    | none => .error ("Could not find on YouTube: " ++ (ti.name ++ " " ++ ti.artists.headD ""))
    | some (_, videoId) =>
      .ok { title := ti.name, artist := ti.artists.headD "",
            duration_ms := ti.duration_ms,
            album_art_url := (largestImage ti.albumImages).bind SpotifyImage.url,
            youtube_url := "https://www.youtube.com/watch?v=" ++ videoId,
            source_url := some url, requested_by := none }

/-- One playlist entry of `Resolver.iter_youtube_playlist`: entries whose
`id` is missing or empty (Python falsy) are skipped. -/
def entryToTrack (url : String) (e : PlaylistEntry) : Option Track :=
  match e.id with
  | none => none
  | some vid =>
    if vid = "" then none
    else some { title := e.title.getD "Unknown", artist := "YouTube",
                duration_ms := (e.duration.getD 0) * 1000, album_art_url := none,
                youtube_url := "https://www.youtube.com/watch?v=" ++ vid,
                source_url := some url, requested_by := none }

/-- `Resolver.iter_youtube_playlist`, fully forced (as
`_resolve_youtube_playlist` does with `list(...)`). -/
def iterYoutubePlaylist (P : Providers) (url : String) : Except String (List Track) :=
  match P.youtubePlaylistEntries url with
  | [] => .error ("Could not load YouTube playlist: " ++ url)
  | es => .ok ((es.take MAX_PLAYLIST_TRACKS).filterMap (entryToTrack url))

/-- `Resolver._spotify_track_info_to_track`. -/
def spotifyTrackInfoToTrack (P : Providers) (ti : SpotifyTrackInfo) (source_url : String) :
    Except String Track :=
  match P.ytmusicSearch (ti.name ++ " " ++ ti.artists.headD "") with
  | none => .error ("Could not find: " ++ ti.name)
  | some (m, videoId) =>
    .ok { title := ti.name, artist := ti.artists.headD "",
          duration_ms := ti.duration_ms, album_art_url := m.album_art_url,
          youtube_url := "https://www.youtube.com/watch?v=" ++ videoId,
          source_url := some source_url, requested_by := none }

/-- `Resolver.iter_spotify_playlist`, fully forced: entries whose individual
resolution fails are skipped (`except ValueError: continue`). -/
def iterSpotifyPlaylist (P : Providers) (url : String) : Except String (List Track) :=
  match P.spotifyGetPlaylistTracks url with
  | [] => .error ("Could not load Spotify playlist: " ++ url)
  | ts => .ok ((ts.take MAX_PLAYLIST_TRACKS).filterMap
      (fun ti => (spotifyTrackInfoToTrack P ti url).toOption))

/-- `Resolver.resolve`: classify the input and dispatch. -/
def resolve (P : Providers) (query : String) : Except String (List Track) :=
  if detectInputType query = "youtube_video" then
    (resolveYoutubeVideo P query).map (fun t => [t])
  else if detectInputType query = "youtube_playlist" then
    iterYoutubePlaylist P query
  else if detectInputType query = "spotify_track" then
    (resolveSpotifyTrack P query).map (fun t => [t])
  else if detectInputType query = "spotify_playlist" then
    iterSpotifyPlaylist P query
  else
    (resolveSearch P query).map (fun t => [t])

theorem pyContains_watch_append (vid : String) :
    pyContains "youtube.com/watch" ("https://www.youtube.com/watch?v=" ++ vid) = true := by
  unfold pyContains
  rw [decide_eq_true_iff, String.data_append]
  have h1 : "youtube.com/watch".data <:+: "https://www.youtube.com/watch?v=".data := by decide
  exact h1.trans ⟨[], vid.data, by simp⟩

theorem detect_spotify_no_watch {url : String}
    (h : detectInputType url = "spotify_track") :
    pyContains "youtube.com/watch" url = false := by
  by_contra hne
  have hb : pyContains "youtube.com/watch" url = true := by
    cases hx : pyContains "youtube.com/watch" url
    · exact absurd hx hne
    · rfl
  unfold detectInputType at h
  by_cases h1 : pyContains "youtube.com/playlist" url = true
  · rw [if_pos h1] at h
    exact absurd h (by decide)
  · rw [if_neg h1, if_pos (by rw [hb]; simp)] at h
    exact absurd h (by decide)

/-- C8: video-URL resolution identity. For a query classified as a YouTube
video URL whose metadata fetch succeeds, `resolve` returns exactly one track
whose playback URL and source URL both equal the input URL. -/
theorem youtube_video_resolution (P : Providers) (url : String) (m : TrackMetadata)
    (hd : detectInputType url = "youtube_video")
    (hm : P.youtubeMetadata url = some m) :
    resolve P url = Except.ok [{ title := m.title, artist := m.artist,
                                 duration_ms := m.duration_ms,
                                 album_art_url := m.album_art_url,
                                 youtube_url := url, source_url := some url,
                                 requested_by := none }] := by
  unfold resolve
  rw [hd, if_pos rfl]
  simp [resolveYoutubeVideo, hm, Except.map]

def emptyMeta : TrackMetadata :=
  { title := "t", artist := "ar", duration_ms := 1000, album_art_url := none,
    source_url := none }

def testSpotifyInfo : SpotifyTrackInfo :=
  { name := "Song", artists := ["Artist"], duration_ms := 123000,
    albumImages := [{ width := 640, height := 640, url := some "http://img" }] }

def testProviders : Providers :=
  { ytmusicSearch := fun _ => some (emptyMeta, "vid123"),
    youtubeMetadata := fun _ => some emptyMeta,
    youtubePlaylistEntries := fun _ =>
      [{ id := some "id1", title := some "T1", duration := some 60 },
       { id := none, title := some "bad", duration := none }],
    spotifyGetTrack := fun _ => some testSpotifyInfo,
    spotifyGetPlaylistTracks := fun _ => [testSpotifyInfo] }

/-- C8 witness: the concrete video URL of the spec's end-to-end property. -/
theorem youtube_video_resolution_witness :
    resolve testProviders "https://youtube.com/watch?v=X" = Except.ok
      [{ title := emptyMeta.title, artist := emptyMeta.artist,
         duration_ms := emptyMeta.duration_ms,
         album_art_url := emptyMeta.album_art_url,
         youtube_url := "https://youtube.com/watch?v=X",
         source_url := some "https://youtube.com/watch?v=X",
         requested_by := none }] :=
  youtube_video_resolution testProviders "https://youtube.com/watch?v=X" emptyMeta
    (by decide) rfl

/-- C5: cross-provider resolution of a Spotify track URL. With a successful
scrape, (a) a successful catalog search for "{title} {artist}" yields exactly
one track whose playback URL is a YouTube watch reference distinct from the
input, whose source URL is the input, and whose display metadata (title,
artist, duration, album art) comes from the scraped data; (b) a failed
search yields the could-not-find-on-YouTube error. -/
theorem spotify_track_resolution (P : Providers) (url : String) (ti : SpotifyTrackInfo)
    (hd : detectInputType url = "spotify_track")
    (hsp : P.spotifyGetTrack url = some ti) :
    (∀ (m : TrackMetadata) (vid : String),
      P.ytmusicSearch (ti.name ++ " " ++ ti.artists.headD "") = some (m, vid) →
      resolve P url = Except.ok
        [{ title := ti.name, artist := ti.artists.headD "",
           duration_ms := ti.duration_ms,
           album_art_url := (largestImage ti.albumImages).bind SpotifyImage.url,
           youtube_url := "https://www.youtube.com/watch?v=" ++ vid,
           source_url := some url, requested_by := none }] ∧
      "https://www.youtube.com/watch?v=" ++ vid ≠ url) ∧
    (P.ytmusicSearch (ti.name ++ " " ++ ti.artists.headD "") = none →
      resolve P url = Except.error
        ("Could not find on YouTube: " ++ (ti.name ++ " " ++ ti.artists.headD ""))) := by
  have hres : resolve P url = (resolveSpotifyTrack P url).map (fun t => [t]) := by
    unfold resolve
    rw [hd, if_neg (by decide), if_neg (by decide), if_pos rfl]
  constructor
  · intro m vid hsearch
    constructor
    · rw [hres]
      simp only [resolveSpotifyTrack, hsp]
      rw [hsearch]
      simp [Except.map]
    · intro heq
      have hc := pyContains_watch_append vid
      rw [heq] at hc
      rw [detect_spotify_no_watch hd] at hc
      exact Bool.false_ne_true hc
  · intro hsearch
    rw [hres]
    simp only [resolveSpotifyTrack, hsp]
    rw [hsearch]
    simp [Except.map]

def spUrl : String := "https://open.spotify.com/track/abc"

/-- C5 witness: a concrete Spotify track URL with successful scrape and
search. -/
theorem spotify_track_resolution_witness :
    resolve testProviders spUrl = Except.ok
      [{ title := testSpotifyInfo.name,
         artist := testSpotifyInfo.artists.headD "",
         duration_ms := testSpotifyInfo.duration_ms,
         album_art_url := (largestImage testSpotifyInfo.albumImages).bind SpotifyImage.url,
         youtube_url := "https://www.youtube.com/watch?v=" ++ "vid123",
         source_url := some spUrl, requested_by := none }] ∧
    "https://www.youtube.com/watch?v=" ++ "vid123" ≠ spUrl :=
  (spotify_track_resolution testProviders spUrl testSpotifyInfo (by decide) rfl).1
    emptyMeta "vid123" rfl

/-- C6: playlist resolution is capped at 500 tracks, and a malformed entry
(missing id) or an entry whose individual resolution fails is skipped
without aborting the rest of the sequence. -/
theorem playlist_cap_and_partial_failure (P : Providers) (url : String) :
    (∀ ts, iterYoutubePlaylist P url = Except.ok ts → ts.length ≤ MAX_PLAYLIST_TRACKS) ∧
    (∀ ts, iterSpotifyPlaylist P url = Except.ok ts → ts.length ≤ MAX_PLAYLIST_TRACKS) ∧
    (∀ (es₁ es₂ : List PlaylistEntry) (e : PlaylistEntry), entryToTrack url e = none →
      (es₁ ++ e :: es₂).length ≤ MAX_PLAYLIST_TRACKS →
      ((es₁ ++ e :: es₂).take MAX_PLAYLIST_TRACKS).filterMap (entryToTrack url) =
        ((es₁ ++ es₂).take MAX_PLAYLIST_TRACKS).filterMap (entryToTrack url)) ∧
    (∀ (ts₁ ts₂ : List SpotifyTrackInfo) (ti : SpotifyTrackInfo),
      (spotifyTrackInfoToTrack P ti url).toOption = none →
      (ts₁ ++ ti :: ts₂).length ≤ MAX_PLAYLIST_TRACKS →
      ((ts₁ ++ ti :: ts₂).take MAX_PLAYLIST_TRACKS).filterMap
          (fun x => (spotifyTrackInfoToTrack P x url).toOption) =
        ((ts₁ ++ ts₂).take MAX_PLAYLIST_TRACKS).filterMap
          (fun x => (spotifyTrackInfoToTrack P x url).toOption)) := by
  refine ⟨?_, ?_, ?_, ?_⟩
  · intro ts h
    cases hes : P.youtubePlaylistEntries url with
    | nil => simp [iterYoutubePlaylist, hes] at h
    | cons e es =>
      simp only [iterYoutubePlaylist, hes, Except.ok.injEq] at h
      rw [← h]
      calc (((e :: es).take MAX_PLAYLIST_TRACKS).filterMap (entryToTrack url)).length
          ≤ ((e :: es).take MAX_PLAYLIST_TRACKS).length :=
            List.length_filterMap_le _ _
        _ ≤ MAX_PLAYLIST_TRACKS := by rw [List.length_take]; exact min_le_left _ _
  · intro ts h
    cases hes : P.spotifyGetPlaylistTracks url with
    | nil => simp [iterSpotifyPlaylist, hes] at h
    | cons e es =>
      simp only [iterSpotifyPlaylist, hes, Except.ok.injEq] at h
      rw [← h]
      calc (((e :: es).take MAX_PLAYLIST_TRACKS).filterMap
            (fun ti => (spotifyTrackInfoToTrack P ti url).toOption)).length
          ≤ ((e :: es).take MAX_PLAYLIST_TRACKS).length :=
            List.length_filterMap_le _ _
        _ ≤ MAX_PLAYLIST_TRACKS := by rw [List.length_take]; exact min_le_left _ _
  · intro es₁ es₂ e he hlen
    have hlen2 : (es₁ ++ es₂).length ≤ MAX_PLAYLIST_TRACKS := by
      simp only [List.length_append, List.length_cons] at hlen ⊢
      omega
    rw [List.take_of_length_le hlen, List.take_of_length_le hlen2]
    simp [List.filterMap_append, List.filterMap_cons, he]
  · intro ts₁ ts₂ ti hti hlen
    have hlen2 : (ts₁ ++ ts₂).length ≤ MAX_PLAYLIST_TRACKS := by
      simp only [List.length_append, List.length_cons] at hlen ⊢
      omega
    rw [List.take_of_length_le hlen, List.take_of_length_le hlen2]
    simp [List.filterMap_append, List.filterMap_cons, hti]

/-- C6 witness: a malformed entry (no id) is skipped at a concrete input. -/
theorem playlist_cap_and_partial_failure_witness :
    (([] ++ PlaylistEntry.mk none none none :: []).take MAX_PLAYLIST_TRACKS).filterMap
        (entryToTrack "purl") =
      (([] ++ ([] : List PlaylistEntry)).take MAX_PLAYLIST_TRACKS).filterMap
        (entryToTrack "purl") :=
  (playlist_cap_and_partial_failure testProviders "purl").2.2.1 [] []
    (PlaylistEntry.mk none none none) rfl (by decide)
